import Mathlib

/-!
Shallow embedding of `custom_components/remote.py` (Broadlink remote adapter).

The Python class `BroadlinkRemote` holds a mutable preset collection
(`preset_list : dict preset -> dict button -> code`) and a device handle, and
exposes three async methods: `send_command`, `learn_command` and the request
dispatcher `async_request` (with its helper `async_auth`).

Modelling choices:
- Python exceptions become an explicit error type `BLError`; `raise` becomes
  `Except.error`, normal return becomes `Except.ok`.
- The external device, executor and codec are oracles: each blocking call's
  outcome is a parameter (`ReqEnv`, `decodeRes`, the poll stream `polls`).
- Mutation of `preset_list` becomes explicit state passing: each operation
  returns the (possibly updated) preset collection.
- Observable side effects (executor jobs, auth calls, dispatcher entry,
  notification create/dismiss) are recorded in a chronological event list.
- Wall-clock time in the learning loop is a natural number of seconds;
  `asyncio.sleep(1)` advances it by 1 and each poll may take `dt` extra
  seconds, supplied by the environment.
-/

/-- Exceptions that flow through `remote.py`.  The `broadlink.exceptions`
classes are subclasses of `BroadlinkException`; `osError`, `keyError` and
`timeoutError` are the Python builtins used by the file. -/
inductive BLError where
  | authenticationError : BLError
  | authorizationError : BLError
  | connectionClosedError : BLError
  | readError : BLError
  | storageError : BLError
  | networkTimeoutError : BLError
  | otherBroadlinkError : BLError
  | osError : BLError
  | keyError : String → BLError
  | timeoutError : String → BLError
deriving DecidableEq, Repr

/-- Membership in the `BroadlinkException` class hierarchy. -/
def BLError.isBroadlink : BLError → Bool
  | .authenticationError => true
  | .authorizationError => true
  | .connectionClosedError => true
  | .readError => true
  | .storageError => true
  | .networkTimeoutError => true
  | .otherBroadlinkError => true
  | _ => false

/-- Matches the clause `except (BroadlinkException, OSError)`. -/
def BLError.isBroadlinkOrOS (e : BLError) : Bool :=
  e.isBroadlink || e == BLError.osError

/-- Matches the clause `except (AuthorizationError, ConnectionClosedError)`
in `async_request`. -/
def BLError.isAuthOrConnClosed : BLError → Bool
  | .authorizationError => true
  | .connectionClosedError => true
  | _ => false

/-- Matches the clause `except (ReadError, StorageError)` in the learning
loop ("no data yet"). -/
def BLError.isReadOrStorage : BLError → Bool
  | .readError => true
  | .storageError => true
  | _ => false

/-- Observable side effects of a run, in chronological order.
`execJob` is an executor job running the dispatched device operation,
`authCall` an executor job running `device.auth`, `dispatch` an entry into
`async_request`, `decodeCall` a call of the codec `decode_packet`, and
`notifCreate` / `notifDismiss` the persistent-notification calls. -/
inductive Event where
  | execJob : Event
  | authCall : Event
  | dispatch : Event
  | decodeCall : Event
  | notifCreate : Event
  | notifDismiss : Event
deriving DecidableEq, Repr

/-- Environment of one `async_request` call: the outcome of the first
executor run of the operation, the outcome of `device.auth` (used only if the
first run fails with the auth/connection-closed class), and the outcome of
the retried executor run (used only if re-authentication succeeds). -/
structure ReqEnv (α : Type) where
  firstCall : Except BLError α
  authOutcome : Except BLError Unit
  secondCall : Except BLError α

/-- `BroadlinkRemote.async_auth`: run `device.auth` on the executor; return
`false` on `(BroadlinkException, OSError)`, `true` on success; any other
exception propagates. -/
def async_auth (authOutcome : Except BLError Unit) :
    Except BLError Bool × List Event :=
  match authOutcome with
  | .ok _ => (.ok true, [.authCall])
  | .error e =>
      if e.isBroadlinkOrOS then (.ok false, [.authCall])
      else (.error e, [.authCall])

/-- `BroadlinkRemote.async_request`: run the operation on the executor; on
`(AuthorizationError, ConnectionClosedError)` re-authenticate once; if that
returns `false`, re-raise the original failure; otherwise run the operation
once more and return that run's outcome. -/
def async_request (env : ReqEnv α) : Except BLError α × List Event :=
  match env.firstCall with
  | .ok v => (.ok v, [.dispatch, .execJob])
  | .error e =>
      if e.isAuthOrConnClosed then
        match async_auth env.authOutcome with
        | (.ok true, evs) =>
            (env.secondCall, [.dispatch, .execJob] ++ evs ++ [.execJob])
        | (.ok false, evs) => (.error e, [.dispatch, .execJob] ++ evs)
        | (.error e₂, evs) => (.error e₂, [.dispatch, .execJob] ++ evs)
      else (.error e, [.dispatch, .execJob])

/-- The base64 alphabet used by Python's `base64.b64encode`. -/
def b64Alphabet : String :=
  "ABCDEFGHIJKLMNOPQRSTUVWXYZabcdefghijklmnopqrstuvwxyz0123456789+/"

/-- Character of the base64 alphabet at a 6-bit index. -/
def b64Char (n : Nat) : Char := b64Alphabet.toList.getD n '='

/-- `base64.b64encode(code).decode("utf8")`: standard base64 with padding,
on a byte sequence. -/
def b64encode : List Nat → String
  | [] => ""
  | [a] => String.mk [b64Char (a / 4), b64Char (a % 4 * 16), '=', '=']
  | [a, b] =>
      String.mk [b64Char (a / 4), b64Char (a % 4 * 16 + b / 16),
        b64Char (b % 16 * 4), '=']
  | a :: b :: c :: rest =>
      String.mk [b64Char (a / 4), b64Char (a % 4 * 16 + b / 16),
        b64Char (b % 16 * 4 + c / 64), b64Char (c % 64)] ++ b64encode rest

/-- The preset collection: preset name → (button name → stored code),
as insertion-ordered association lists (Python `dict`s). -/
abbrev Presets := List (String × List (String × String))

/-- Python `dict` assignment `m[k] = v`: replace in place, or append. -/
def dictSet : List (String × String) → String → String → List (String × String)
  | [], k, v => [(k, v)]
  | (k₂, v₂) :: rest, k, v =>
      if k₂ = k then (k, v) :: rest else (k₂, v₂) :: dictSet rest k v

/-- `preset_list[preset][button] = code` once `preset` is known to be a key:
update that preset's button dict, leave every other preset untouched. -/
def setSlot (presets : Presets) (preset button code : String) : Presets :=
  presets.map (fun p => if p.1 = preset then (p.1, dictSet p.2 button code) else p)

/-- Lookup of the code stored in a preset/button slot. -/
def slot (presets : Presets) (preset button : String) : Option String :=
  (presets.lookup preset).bind (fun m => m.lookup button)

/-- `BroadlinkRemote.send_command`: look up
`preset_list[preset].get(button_name)` (a missing preset raises `KeyError`);
if no code is stored, log a warning and return; otherwise decode the code and
dispatch `device.send_data` through `async_request`, swallowing
`(BroadlinkException, OSError)`.  `decodeRes` is the outcome of the external
codec `decode_packet` on the stored code, `sendEnv` the dispatcher
environment of the `send_data` request. -/
def send_command (presets : Presets) (button_name preset : String)
    (decodeRes : Except BLError (List Nat)) (sendEnv : ReqEnv Unit) :
    Except BLError Unit × Presets × List Event :=
  match presets.lookup preset with
  | none => (.error (BLError.keyError preset), presets, [])
  | some m =>
      match m.lookup button_name with
      | none => (.ok (), presets, [])
      | some _ =>
          match decodeRes with
          | .error e =>
              if e.isBroadlinkOrOS then (.ok (), presets, [.decodeCall])
              else (.error e, presets, [.decodeCall])
          | .ok _ =>
              match async_request sendEnv with
              | (.ok _, evs) => (.ok (), presets, .decodeCall :: evs)
              | (.error e, evs) =>
                  if e.isBroadlinkOrOS then (.ok (), presets, .decodeCall :: evs)
                  else (.error e, presets, .decodeCall :: evs)

/-- The message of the `TimeoutError` raised by `learn_command`
(`LEARNING_TIMEOUT.total_seconds()` prints as `30.0`). -/
def timeoutMsg : String :=
  "No infrared code received within 30.0 seconds"

/-- `LEARNING_TIMEOUT` in seconds. -/
def LEARNING_TIMEOUT : Nat := 30

/-- The `while (utcnow() - start_time) < LEARNING_TIMEOUT` loop of
`learn_command`.  `polls i` supplies, for the `i`-th iteration, the extra
seconds `dt` the iteration takes beyond the 1-second sleep, and the
dispatcher environment of that iteration's `check_data` request.  `t` is the
elapsed wall-clock time at the top of the loop.  A "no data yet" failure
(`ReadError`, `StorageError`) continues the loop; success encodes the bytes,
stores them into `preset_list[preset][button_name]` (a missing preset raises
`KeyError`) and returns the encoded code; any other failure propagates; once
`t` reaches the timeout, `TimeoutError` is raised. -/
def learn_loop (presets : Presets) (button_name preset : String)
    (polls : Nat → Nat × ReqEnv (List Nat)) (i t : Nat) :
    Except BLError String × Presets × List Event :=
  if h : t < LEARNING_TIMEOUT then
    match async_request (polls i).2 with
    | (.error e, evs) =>
        if e.isReadOrStorage then
          match learn_loop presets button_name preset polls (i + 1)
              (t + 1 + (polls i).1) with
          | (res, presets₂, evs₂) => (res, presets₂, evs ++ evs₂)
        else (.error e, presets, evs)
    | (.ok data, evs) =>
        match presets.lookup preset with
        | none => (.error (BLError.keyError preset), presets, evs)
        | some _ =>
            (.ok (b64encode data),
              setSlot presets preset button_name (b64encode data), evs)
  else (.error (BLError.timeoutError timeoutMsg), presets, [])
termination_by LEARNING_TIMEOUT - t
decreasing_by simp only [LEARNING_TIMEOUT] at *; omega

/-- Environment of one `learn_command` run: the dispatcher environment of the
`enter_learning` request, and the per-iteration environments of the polling
loop. -/
structure LearnEnv where
  enterEnv : ReqEnv Unit
  polls : Nat → Nat × ReqEnv (List Nat)

/-- `BroadlinkRemote.learn_command`: dispatch `enter_learning` (failure
propagates before any notification), create the persistent notification, run
the polling loop, and dismiss the notification in a `finally` block on every
exit of the loop. -/
def learn_command (presets : Presets) (button_name preset : String)
    (env : LearnEnv) : Except BLError String × Presets × List Event :=
  match async_request env.enterEnv with
  | (.error e, evs) => (.error e, presets, evs)
  | (.ok _, evs) =>
      match learn_loop presets button_name preset env.polls 0 0 with
      | (res, presets₂, evs₂) =>
          (res, presets₂,
            evs ++ [.notifCreate] ++ evs₂ ++ [.notifDismiss])

/-- Elapsed wall-clock seconds consumed by iterations `i, i+1, ..., i+k-1`
of the polling loop (each iteration sleeps 1 second and takes `(polls j).1`
extra seconds). -/
def pollElapsed (polls : Nat → Nat × ReqEnv (List Nat)) (i : Nat) : Nat → Nat
  | 0 => 0
  | k + 1 => pollElapsed polls i k + 1 + (polls (i + k)).1

theorem b64encode_block : b64encode [77, 97, 110] = "TWFu" := by decide

theorem b64encode_two_bytes : b64encode [77, 97] = "TWE=" := by decide

theorem b64encode_one_byte : b64encode [77] = "TQ==" := by decide


theorem ar_eval_ok {α : Type} (v : α) (a : Except BLError Unit)
    (s : Except BLError α) :
    async_request (ReqEnv.mk (Except.ok v) a s) =
      (Except.ok v, [Event.dispatch, Event.execJob]) := rfl

theorem ar_eval_retry {α : Type} (e : BLError)
    (hc : e.isAuthOrConnClosed = true) (s : Except BLError α) :
    async_request (ReqEnv.mk (Except.error e) (Except.ok ()) s) =
      (s, [Event.dispatch, Event.execJob, Event.authCall, Event.execJob]) := by
  simp [async_request, async_auth, hc]

theorem ar_eval_auth_failed {α : Type} (e e₂ : BLError)
    (hc : e.isAuthOrConnClosed = true) (hb : e₂.isBroadlinkOrOS = true)
    (s : Except BLError α) :
    async_request (ReqEnv.mk (Except.error e) (Except.error e₂) s) =
      (Except.error e, [Event.dispatch, Event.execJob, Event.authCall]) := by
  simp [async_request, async_auth, hc, hb]

theorem ar_eval_auth_raised {α : Type} (e e₂ : BLError)
    (hc : e.isAuthOrConnClosed = true) (hb : e₂.isBroadlinkOrOS = false)
    (s : Except BLError α) :
    async_request (ReqEnv.mk (Except.error e) (Except.error e₂) s) =
      (Except.error e₂, [Event.dispatch, Event.execJob, Event.authCall]) := by
  simp [async_request, async_auth, hc, hb]

theorem ar_eval_other {α : Type} (e : BLError)
    (hc : e.isAuthOrConnClosed = false) (a : Except BLError Unit)
    (s : Except BLError α) :
    async_request (ReqEnv.mk (Except.error e) a s) =
      (Except.error e, [Event.dispatch, Event.execJob]) := by
  simp [async_request, hc]

theorem async_request_events_cases {α : Type} (env : ReqEnv α) :
    (async_request env).2 = [Event.dispatch, Event.execJob] ∨
    (async_request env).2 = [Event.dispatch, Event.execJob, Event.authCall] ∨
    (async_request env).2 =
      [Event.dispatch, Event.execJob, Event.authCall, Event.execJob] := by
  rcases env with ⟨f, a, s⟩
  rcases f with e | v
  · by_cases hc : e.isAuthOrConnClosed = true
    · rcases a with e₂ | u
      · by_cases hb : e₂.isBroadlinkOrOS = true
        · rw [ar_eval_auth_failed e e₂ hc hb s]; right; left; rfl
        · rw [ar_eval_auth_raised e e₂ hc (by simpa using hb) s]
          right; left; rfl
      · rw [ar_eval_retry e hc s]; right; right; rfl
    · rw [ar_eval_other e (by simpa using hc) a s]; left; rfl
  · rw [ar_eval_ok v a s]; left; rfl

theorem async_request_count_notif {α : Type} (env : ReqEnv α) :
    ((async_request env).2).count Event.notifCreate = 0 ∧
    ((async_request env).2).count Event.notifDismiss = 0 := by
  rcases async_request_events_cases env with h | h | h <;> rw [h] <;>
    exact ⟨by decide, by decide⟩

/-- C1: if a dispatched operation fails with the
authorization-or-connection-closed class, `async_request` attempts
re-authentication exactly once; if re-authentication succeeds, the operation
is run exactly once more and that retried run's outcome is returned; if
re-authentication fails, the original failure propagates unchanged. -/
theorem C1_auth_retry {α : Type} (env : ReqEnv α) (e : BLError)
    (hf : env.firstCall = Except.error e)
    (hc : e.isAuthOrConnClosed = true) :
    ((async_request env).2).count Event.authCall = 1 ∧
    (∀ u, env.authOutcome = Except.ok u →
      (async_request env).1 = env.secondCall ∧
      ((async_request env).2).count Event.execJob = 2) ∧
    (∀ e₂, env.authOutcome = Except.error e₂ → e₂.isBroadlinkOrOS = true →
      (async_request env).1 = Except.error e ∧
      ((async_request env).2).count Event.execJob = 1) := by
  rcases env with ⟨f, a, s⟩
  simp only at hf
  subst hf
  refine ⟨?_, ?_, ?_⟩
  · rcases a with e₂ | u
    · by_cases hb : e₂.isBroadlinkOrOS = true
      · rw [ar_eval_auth_failed e e₂ hc hb s]; rfl
      · rw [ar_eval_auth_raised e e₂ hc (by simpa using hb) s]; rfl
    · cases u; rw [ar_eval_retry e hc s]; rfl
  · rintro u hu
    simp only at hu
    subst hu
    cases u
    rw [ar_eval_retry e hc s]
    exact ⟨rfl, rfl⟩
  · rintro e₂ hu hb
    simp only at hu
    subst hu
    rw [ar_eval_auth_failed e e₂ hc hb s]
    exact ⟨rfl, rfl⟩

theorem C1_auth_retry_witness :
    (async_request (ReqEnv.mk (Except.error BLError.authorizationError)
        (Except.ok ()) (Except.ok (5 : Nat)))).1 = Except.ok 5 := by
  have h := C1_auth_retry
    (ReqEnv.mk (Except.error BLError.authorizationError)
      (Except.ok ()) (Except.ok (5 : Nat)))
    BLError.authorizationError rfl rfl
  have h₂ := (h.2.1 () rfl).1
  simpa using h₂

/-- C8: a dispatched operation failing outside the
authorization-or-connection-closed class propagates immediately: no
re-authentication attempt, no retry of the operation. -/
theorem C8_no_retry {α : Type} (env : ReqEnv α) (e : BLError)
    (hf : env.firstCall = Except.error e)
    (hc : e.isAuthOrConnClosed = false) :
    (async_request env).1 = Except.error e ∧
    ((async_request env).2).count Event.authCall = 0 ∧
    ((async_request env).2).count Event.execJob = 1 := by
  rcases env with ⟨f, a, s⟩
  simp only at hf
  subst hf
  rw [ar_eval_other e hc a s]
  exact ⟨rfl, rfl, rfl⟩

theorem C8_no_retry_witness :
    (async_request (ReqEnv.mk (Except.error BLError.networkTimeoutError)
        (Except.ok ()) (Except.ok (5 : Nat)))).1 =
      Except.error BLError.networkTimeoutError := by
  have h := C8_no_retry
    (ReqEnv.mk (Except.error BLError.networkTimeoutError)
      (Except.ok ()) (Except.ok (5 : Nat)))
    BLError.networkTimeoutError rfl rfl
  exact h.1

/-- C7: for a stored code, if decoding it or dispatching it fails with a
`BroadlinkException` or `OSError`, `send_command` swallows the failure and
returns normally, so the caller never observes a delivery failure. -/
theorem C7_send_swallow (presets : Presets) (m : List (String × String))
    (button_name preset code : String)
    (decodeRes : Except BLError (List Nat)) (sendEnv : ReqEnv Unit)
    (e : BLError)
    (hp : presets.lookup preset = some m)
    (hb : m.lookup button_name = some code)
    (he : e.isBroadlinkOrOS = true)
    (hfail : decodeRes = Except.error e ∨
      (∃ raw, decodeRes = Except.ok raw ∧
        (async_request sendEnv).1 = Except.error e)) :
    (send_command presets button_name preset decodeRes sendEnv).1 =
      Except.ok () := by
  rcases hfail with rfl | ⟨raw, rfl, hr⟩
  · simp [send_command, hp, hb, he]
  · rcases har : async_request sendEnv with ⟨r, evs⟩
    rw [har] at hr
    simp only at hr
    subst hr
    simp [send_command, hp, hb, har, he]

theorem C7_send_swallow_witness :
    (send_command [("p", [("b", "code")])] "b" "p"
        (Except.error BLError.osError)
        (ReqEnv.mk (Except.ok ()) (Except.ok ()) (Except.ok ()))).1 =
      Except.ok () := by
  exact C7_send_swallow [("p", [("b", "code")])] [("b", "code")] "b" "p" "code"
    (Except.error BLError.osError)
    (ReqEnv.mk (Except.ok ()) (Except.ok ()) (Except.ok ()))
    BLError.osError (by decide) (by decide) (by decide)
    (Or.inl rfl)

/-- C4 fails as stated: with an empty preset collection no code is stored
for any preset/button pair, yet `send_command` raises `KeyError` from
`preset_list[preset]` instead of returning silently. -/
theorem C4_counterexample :
    (send_command [] "b" "p" (Except.ok [])
        (ReqEnv.mk (Except.ok ()) (Except.ok ()) (Except.ok ()))).1 =
      Except.error (BLError.keyError "p") ∧
    ¬ (send_command [] "b" "p" (Except.ok [])
        (ReqEnv.mk (Except.ok ()) (Except.ok ()) (Except.ok ()))).1 =
      Except.ok () := by
  refine ⟨rfl, fun h => ?_⟩
  exact nomatch h

/-- C4 amended: for every preset that is a key of the collection whose
button dict stores no code for the requested button, `send_command` returns
without raising and never enters the dispatcher or runs an executor job. -/
theorem C4_silent_noop (presets : Presets) (m : List (String × String))
    (button_name preset : String)
    (decodeRes : Except BLError (List Nat)) (sendEnv : ReqEnv Unit)
    (hp : presets.lookup preset = some m)
    (hb : m.lookup button_name = none) :
    (send_command presets button_name preset decodeRes sendEnv).1 =
      Except.ok () ∧
    ((send_command presets button_name preset decodeRes sendEnv).2.2).count
      Event.dispatch = 0 ∧
    ((send_command presets button_name preset decodeRes sendEnv).2.2).count
      Event.execJob = 0 := by
  refine ⟨?_, ?_, ?_⟩ <;> simp [send_command, hp, hb]

theorem C4_silent_noop_witness :
    (send_command [("p", [])] "b" "p" (Except.ok [])
        (ReqEnv.mk (Except.ok ()) (Except.ok ()) (Except.ok ()))).1 =
      Except.ok () := by
  exact (C4_silent_noop [("p", [])] [] "b" "p" (Except.ok [])
    (ReqEnv.mk (Except.ok ()) (Except.ok ()) (Except.ok ()))
    (by decide) (by decide)).1

theorem lookup_cons_self {β : Type} (k : String) (v : β)
    (l : List (String × β)) : List.lookup k ((k, v) :: l) = some v := by
  simp [List.lookup]

theorem lookup_cons_ne {β : Type} (k k₂ : String) (v : β)
    (l : List (String × β)) (h : k ≠ k₂) :
    List.lookup k ((k₂, v) :: l) = List.lookup k l := by
  simp [List.lookup, beq_false_of_ne h]

theorem dictSet_lookup_self (m : List (String × String)) (k v : String) :
    (dictSet m k v).lookup k = some v := by
  induction m with
  | nil => exact lookup_cons_self k v []
  | cons hd tl ih =>
      rcases hd with ⟨k₂, v₂⟩
      by_cases h : k₂ = k
      · subst h
        rw [show dictSet ((k₂, v₂) :: tl) k₂ v = (k₂, v) :: tl by
          simp [dictSet]]
        exact lookup_cons_self k₂ v tl
      · rw [show dictSet ((k₂, v₂) :: tl) k v = (k₂, v₂) :: dictSet tl k v by
          simp [dictSet, h]]
        rw [lookup_cons_ne k k₂ v₂ _ (fun e => h e.symm)]
        exact ih

theorem dictSet_lookup_ne (m : List (String × String)) (k v b : String)
    (h : b ≠ k) : (dictSet m k v).lookup b = m.lookup b := by
  induction m with
  | nil =>
      rw [show dictSet [] k v = [(k, v)] from rfl,
        lookup_cons_ne b k v [] h]
  | cons hd tl ih =>
      rcases hd with ⟨k₂, v₂⟩
      by_cases h₂ : k₂ = k
      · subst h₂
        rw [show dictSet ((k₂, v₂) :: tl) k₂ v = (k₂, v) :: tl by
          simp [dictSet]]
        rw [lookup_cons_ne b k₂ v tl h, lookup_cons_ne b k₂ v₂ tl h]
      · rw [show dictSet ((k₂, v₂) :: tl) k v = (k₂, v₂) :: dictSet tl k v by
          simp [dictSet, h₂]]
        by_cases h₃ : b = k₂
        · subst h₃
          rw [lookup_cons_self b v₂ (dictSet tl k v),
            lookup_cons_self b v₂ tl]
        · rw [lookup_cons_ne b k₂ v₂ _ h₃, lookup_cons_ne b k₂ v₂ tl h₃]
          exact ih

theorem setSlot_cons (hd : String × List (String × String))
    (tl : Presets) (preset button code : String) :
    setSlot (hd :: tl) preset button code =
      (if hd.1 = preset then (hd.1, dictSet hd.2 button code) else hd) ::
        setSlot tl preset button code := rfl

theorem setSlot_lookup_ne (presets : Presets)
    (preset button code p : String) (h : p ≠ preset) :
    (setSlot presets preset button code).lookup p = presets.lookup p := by
  induction presets with
  | nil => rfl
  | cons hd tl ih =>
      rcases hd with ⟨k, m⟩
      rw [setSlot_cons]
      by_cases h₂ : k = preset
      · subst h₂
        simp only [eq_self_iff_true, if_true]
        rw [lookup_cons_ne p k _ _ h, lookup_cons_ne p k m tl h]
        exact ih
      · simp only [if_neg h₂]
        by_cases h₃ : p = k
        · subst h₃
          rw [lookup_cons_self p m _, lookup_cons_self p m tl]
        · rw [lookup_cons_ne p k m _ h₃, lookup_cons_ne p k m tl h₃]
          exact ih

theorem setSlot_lookup_self (presets : Presets)
    (preset button code : String) (m : List (String × String))
    (hp : presets.lookup preset = some m) :
    (setSlot presets preset button code).lookup preset =
      some (dictSet m button code) := by
  induction presets with
  | nil => exact absurd hp (by simp [List.lookup])
  | cons hd tl ih =>
      rcases hd with ⟨k, m₂⟩
      rw [setSlot_cons]
      by_cases h₂ : k = preset
      · subst h₂
        rw [lookup_cons_self k m₂ tl] at hp
        injection hp with hp
        subst hp
        simp only [eq_self_iff_true, if_true]
        exact lookup_cons_self k _ _
      · rw [lookup_cons_ne preset k m₂ tl (fun e => h₂ e.symm)] at hp
        simp only [if_neg h₂]
        rw [lookup_cons_ne preset k m₂ _ (fun e => h₂ e.symm)]
        exact ih hp

theorem learn_loop_timeout_step (presets : Presets) (button_name preset : String)
    (polls : Nat → Nat × ReqEnv (List Nat)) (i t : Nat)
    (h : ¬ t < LEARNING_TIMEOUT) :
    learn_loop presets button_name preset polls i t =
      (Except.error (BLError.timeoutError timeoutMsg), presets, []) := by
  rw [learn_loop, dif_neg h]

theorem learn_loop_error_step (presets : Presets) (button_name preset : String)
    (polls : Nat → Nat × ReqEnv (List Nat)) (i t : Nat)
    (h : t < LEARNING_TIMEOUT) (e : BLError) (evs : List Event)
    (har : async_request (polls i).2 = (Except.error e, evs))
    (hrs : e.isReadOrStorage = false) :
    learn_loop presets button_name preset polls i t =
      (Except.error e, presets, evs) := by
  rw [learn_loop, dif_pos h, har]
  simp [hrs]

theorem learn_loop_continue_step (presets : Presets)
    (button_name preset : String)
    (polls : Nat → Nat × ReqEnv (List Nat)) (i t : Nat)
    (h : t < LEARNING_TIMEOUT) (e : BLError) (evs : List Event)
    (har : async_request (polls i).2 = (Except.error e, evs))
    (hrs : e.isReadOrStorage = true) :
    learn_loop presets button_name preset polls i t =
      ((learn_loop presets button_name preset polls (i + 1)
          (t + 1 + (polls i).1)).1,
        (learn_loop presets button_name preset polls (i + 1)
          (t + 1 + (polls i).1)).2.1,
        evs ++ (learn_loop presets button_name preset polls (i + 1)
          (t + 1 + (polls i).1)).2.2) := by
  rw [learn_loop, dif_pos h, har]
  simp only [hrs, if_true]

theorem learn_loop_ok_step_missing (presets : Presets)
    (button_name preset : String)
    (polls : Nat → Nat × ReqEnv (List Nat)) (i t : Nat)
    (h : t < LEARNING_TIMEOUT) (data : List Nat) (evs : List Event)
    (har : async_request (polls i).2 = (Except.ok data, evs))
    (hp : presets.lookup preset = none) :
    learn_loop presets button_name preset polls i t =
      (Except.error (BLError.keyError preset), presets, evs) := by
  rw [learn_loop, dif_pos h, har, hp]

theorem learn_loop_ok_step (presets : Presets) (button_name preset : String)
    (polls : Nat → Nat × ReqEnv (List Nat)) (i t : Nat)
    (h : t < LEARNING_TIMEOUT) (data : List Nat) (evs : List Event)
    (m : List (String × String))
    (har : async_request (polls i).2 = (Except.ok data, evs))
    (hp : presets.lookup preset = some m) :
    learn_loop presets button_name preset polls i t =
      (Except.ok (b64encode data),
        setSlot presets preset button_name (b64encode data), evs) := by
  rw [learn_loop, dif_pos h, har, hp]

theorem pollElapsed_succ_front (polls : Nat → Nat × ReqEnv (List Nat))
    (i : Nat) : ∀ k, pollElapsed polls i (k + 1) =
      1 + (polls i).1 + pollElapsed polls (i + 1) k := by
  intro k
  induction k with
  | zero => simp [pollElapsed]
  | succ n ih =>
      have hx : i + (n + 1) = i + 1 + n := by omega
      rw [show pollElapsed polls i (n + 1 + 1) =
          pollElapsed polls i (n + 1) + 1 + (polls (i + (n + 1))).1 from rfl,
        ih, hx,
        show pollElapsed polls (i + 1) (n + 1) =
          pollElapsed polls (i + 1) n + 1 + (polls (i + 1 + n)).1 from rfl]
      omega

theorem learn_loop_count_notif (button_name preset : String)
    (polls : Nat → Nat × ReqEnv (List Nat)) :
    ∀ fuel t i presets, LEARNING_TIMEOUT ≤ t + fuel →
      ((learn_loop presets button_name preset polls i t).2.2).count
          Event.notifCreate = 0 ∧
      ((learn_loop presets button_name preset polls i t).2.2).count
          Event.notifDismiss = 0 := by
  intro fuel
  induction fuel with
  | zero =>
      intro t i presets hf
      rw [learn_loop_timeout_step presets button_name preset polls i t
        (by omega)]
      exact ⟨rfl, rfl⟩
  | succ n ih =>
      intro t i presets hf
      by_cases ht : t < LEARNING_TIMEOUT
      · rcases har : async_request (polls i).2 with ⟨r, evs⟩
        have hevs := async_request_count_notif (polls i).2
        rw [har] at hevs
        rcases r with e | data
        · by_cases hrs : e.isReadOrStorage = true
          · rw [learn_loop_continue_step presets button_name preset polls i t
              ht e evs har hrs]
            have ih₂ := ih (t + 1 + (polls i).1) (i + 1) presets (by omega)
            simp only [List.count_append]
            exact ⟨by rw [hevs.1, ih₂.1], by rw [hevs.2, ih₂.2]⟩
          · rw [learn_loop_error_step presets button_name preset polls i t
              ht e evs har (by simpa using hrs)]
            exact hevs
        · rcases hp : presets.lookup preset with _ | m
          · rw [learn_loop_ok_step_missing presets button_name preset polls i t
              ht data evs har hp]
            exact hevs
          · rw [learn_loop_ok_step presets button_name preset polls i t
              ht data evs m har hp]
            exact hevs
      · rw [learn_loop_timeout_step presets button_name preset polls i t ht]
        exact ⟨rfl, rfl⟩

theorem learn_loop_noData (button_name preset : String)
    (polls : Nat → Nat × ReqEnv (List Nat))
    (hall : ∀ j, ∃ e, (async_request (polls j).2).1 = Except.error e ∧
      e.isReadOrStorage = true) :
    ∀ fuel t i presets, LEARNING_TIMEOUT ≤ t + fuel →
      (learn_loop presets button_name preset polls i t).1 =
        Except.error (BLError.timeoutError timeoutMsg) ∧
      (learn_loop presets button_name preset polls i t).2.1 = presets := by
  intro fuel
  induction fuel with
  | zero =>
      intro t i presets hf
      rw [learn_loop_timeout_step presets button_name preset polls i t
        (by omega)]
      exact ⟨rfl, rfl⟩
  | succ n ih =>
      intro t i presets hf
      by_cases ht : t < LEARNING_TIMEOUT
      · obtain ⟨e, h₁, hrs⟩ := hall i
        rcases har : async_request (polls i).2 with ⟨r, evs⟩
        rw [har] at h₁
        simp only at h₁
        subst h₁
        rw [learn_loop_continue_step presets button_name preset polls i t
          ht e evs har hrs]
        exact ih (t + 1 + (polls i).1) (i + 1) presets (by omega)
      · rw [learn_loop_timeout_step presets button_name preset polls i t ht]
        exact ⟨rfl, rfl⟩

theorem learn_loop_reaches_ok (button_name preset : String)
    (polls : Nat → Nat × ReqEnv (List Nat)) (data : List Nat) :
    ∀ k i t presets,
      (∀ j, j < k → ∃ e, (async_request (polls (i + j)).2).1 =
        Except.error e ∧ e.isReadOrStorage = true) →
      (async_request (polls (i + k)).2).1 = Except.ok data →
      t + pollElapsed polls i k < LEARNING_TIMEOUT →
      ((presets.lookup preset = none →
        (learn_loop presets button_name preset polls i t).1 =
          Except.error (BLError.keyError preset) ∧
        (learn_loop presets button_name preset polls i t).2.1 = presets) ∧
       (∀ m, presets.lookup preset = some m →
        (learn_loop presets button_name preset polls i t).1 =
          Except.ok (b64encode data) ∧
        (learn_loop presets button_name preset polls i t).2.1 =
          setSlot presets preset button_name (b64encode data))) := by
  intro k
  induction k with
  | zero =>
      intro i t presets hfail hok htime
      have ht : t < LEARNING_TIMEOUT := by
        have : pollElapsed polls i 0 = 0 := rfl
        omega
      rcases har : async_request (polls i).2 with ⟨r, evs⟩
      rw [show i + 0 = i from rfl, har] at hok
      simp only at hok
      subst hok
      constructor
      · intro hp
        rw [learn_loop_ok_step_missing presets button_name preset polls i t
          ht data evs har hp]
        exact ⟨rfl, rfl⟩
      · intro m hp
        rw [learn_loop_ok_step presets button_name preset polls i t
          ht data evs m har hp]
        exact ⟨rfl, rfl⟩
  | succ n ih =>
      intro i t presets hfail hok htime
      have hfront := pollElapsed_succ_front polls i n
      have ht : t < LEARNING_TIMEOUT := by omega
      obtain ⟨e, h₁, hrs⟩ := hfail 0 (by omega)
      rcases har : async_request (polls i).2 with ⟨r, evs⟩
      rw [show i + 0 = i from rfl, har] at h₁
      simp only at h₁
      subst h₁
      rw [learn_loop_continue_step presets button_name preset polls i t
        ht e evs har hrs]
      have hfail₂ : ∀ j, j < n → ∃ e₂,
          (async_request (polls (i + 1 + j)).2).1 = Except.error e₂ ∧
          e₂.isReadOrStorage = true := by
        intro j hj
        have hx : i + 1 + j = i + (j + 1) := by omega
        rw [hx]
        exact hfail (j + 1) (by omega)
      have hok₂ : (async_request (polls (i + 1 + n)).2).1 = Except.ok data := by
        have hx : i + 1 + n = i + (n + 1) := by omega
        rw [hx]
        exact hok
      have htime₂ : t + 1 + (polls i).1 +
          pollElapsed polls (i + 1) n < LEARNING_TIMEOUT := by omega
      exact ih (i + 1) (t + 1 + (polls i).1) presets hfail₂ hok₂ htime₂

theorem learn_loop_ok_inv (button_name preset : String)
    (polls : Nat → Nat × ReqEnv (List Nat)) (s : String) :
    ∀ fuel t i presets, LEARNING_TIMEOUT ≤ t + fuel →
      (learn_loop presets button_name preset polls i t).1 = Except.ok s →
      (∃ m, presets.lookup preset = some m) ∧
      (learn_loop presets button_name preset polls i t).2.1 =
        setSlot presets preset button_name s := by
  intro fuel
  induction fuel with
  | zero =>
      intro t i presets hf hok
      rw [learn_loop_timeout_step presets button_name preset polls i t
        (by omega)] at hok
      exact absurd hok (by simp)
  | succ n ih =>
      intro t i presets hf hok
      by_cases ht : t < LEARNING_TIMEOUT
      · rcases har : async_request (polls i).2 with ⟨r, evs⟩
        rcases r with e | data
        · by_cases hrs : e.isReadOrStorage = true
          · rw [learn_loop_continue_step presets button_name preset polls i t
              ht e evs har hrs] at hok ⊢
            exact ih (t + 1 + (polls i).1) (i + 1) presets (by omega) hok
          · rw [learn_loop_error_step presets button_name preset polls i t
              ht e evs har (by simpa using hrs)] at hok
            exact absurd hok (by simp)
        · rcases hp : presets.lookup preset with _ | m
          · rw [learn_loop_ok_step_missing presets button_name preset polls i t
              ht data evs har hp] at hok
            exact absurd hok (by simp)
          · rw [learn_loop_ok_step presets button_name preset polls i t
              ht data evs m har hp] at hok ⊢
            have hs : b64encode data = s := by injection hok
            exact ⟨⟨m, rfl⟩, by rw [← hs]⟩
      · rw [learn_loop_timeout_step presets button_name preset polls i t ht]
          at hok
        exact absurd hok (by simp)

theorem learn_command_error_eval (presets : Presets)
    (button_name preset : String) (env : LearnEnv) (e : BLError)
    (evs : List Event)
    (har : async_request env.enterEnv = (Except.error e, evs)) :
    learn_command presets button_name preset env =
      (Except.error e, presets, evs) := by
  simp [learn_command, har]

theorem learn_command_ok_eval (presets : Presets)
    (button_name preset : String) (env : LearnEnv) (u : Unit)
    (evs : List Event)
    (har : async_request env.enterEnv = (Except.ok u, evs)) :
    learn_command presets button_name preset env =
      ((learn_loop presets button_name preset env.polls 0 0).1,
        (learn_loop presets button_name preset env.polls 0 0).2.1,
        evs ++ [Event.notifCreate] ++
          (learn_loop presets button_name preset env.polls 0 0).2.2 ++
          [Event.notifDismiss]) := by
  rcases hloop : learn_loop presets button_name preset env.polls 0 0
    with ⟨res, p₂, e₂⟩
  simp [learn_command, har, hloop]

/-- C6: if the dispatched `enter_learning` request fails, the failure
propagates to the caller, and neither the notification create call nor the
dismiss call is ever made. -/
theorem C6_enter_failure (presets : Presets) (button_name preset : String)
    (env : LearnEnv) (e : BLError)
    (henter : (async_request env.enterEnv).1 = Except.error e) :
    (learn_command presets button_name preset env).1 = Except.error e ∧
    ((learn_command presets button_name preset env).2.2).count
      Event.notifCreate = 0 ∧
    ((learn_command presets button_name preset env).2.2).count
      Event.notifDismiss = 0 := by
  rcases har : async_request env.enterEnv with ⟨r, evs⟩
  rw [har] at henter
  simp only at henter
  subst henter
  have hevs := async_request_count_notif env.enterEnv
  rw [har] at hevs
  rw [learn_command_error_eval presets button_name preset env e evs har]
  exact ⟨rfl, hevs.1, hevs.2⟩

theorem C6_enter_failure_witness :
    (learn_command [] "b" "p"
        (LearnEnv.mk
          (ReqEnv.mk (Except.error BLError.osError) (Except.ok ())
            (Except.ok ()))
          (fun _ => (0, ReqEnv.mk (Except.ok []) (Except.ok ())
            (Except.ok []))))).1 = Except.error BLError.osError := by
  exact (C6_enter_failure [] "b" "p"
    (LearnEnv.mk
      (ReqEnv.mk (Except.error BLError.osError) (Except.ok ())
        (Except.ok ()))
      (fun _ => (0, ReqEnv.mk (Except.ok []) (Except.ok ())
        (Except.ok []))))
    BLError.osError rfl).1

/-- C5: on every run of `learn_command` in which `enter_learning` succeeds
(so the persistent notification is created), the notification dismissal call
is made exactly once, whatever the polling phase does. -/
theorem C5_dismiss_once (presets : Presets) (button_name preset : String)
    (env : LearnEnv)
    (henter : (async_request env.enterEnv).1 = Except.ok ()) :
    ((learn_command presets button_name preset env).2.2).count
      Event.notifCreate = 1 ∧
    ((learn_command presets button_name preset env).2.2).count
      Event.notifDismiss = 1 := by
  rcases har : async_request env.enterEnv with ⟨r, evs⟩
  rw [har] at henter
  simp only at henter
  subst henter
  have hevs := async_request_count_notif env.enterEnv
  rw [har] at hevs
  have hloop := learn_loop_count_notif button_name preset env.polls
    LEARNING_TIMEOUT 0 0 presets (by omega)
  rw [learn_command_ok_eval presets button_name preset env () evs har]
  simp only [List.count_append]
  rw [hevs.1, hevs.2, hloop.1, hloop.2]
  exact ⟨rfl, rfl⟩

theorem C5_dismiss_once_witness :
    ((learn_command [] "b" "p"
        (LearnEnv.mk
          (ReqEnv.mk (Except.ok ()) (Except.ok ()) (Except.ok ()))
          (fun _ => (0, ReqEnv.mk (Except.error BLError.readError)
            (Except.ok ()) (Except.ok []))))).2.2).count
      Event.notifDismiss = 1 := by
  exact (C5_dismiss_once [] "b" "p"
    (LearnEnv.mk
      (ReqEnv.mk (Except.ok ()) (Except.ok ()) (Except.ok ()))
      (fun _ => (0, ReqEnv.mk (Except.error BLError.readError)
        (Except.ok ()) (Except.ok []))))
    rfl).2

/-- C3: if `enter_learning` succeeds and every poll of `check_data` fails
with the "no data" class, `learn_command` raises the 30-second timeout error
and the notification is dismissed exactly once. -/
theorem C3_learning_timeout (presets : Presets) (button_name preset : String)
    (env : LearnEnv)
    (henter : (async_request env.enterEnv).1 = Except.ok ())
    (hall : ∀ j, ∃ e, (async_request (env.polls j).2).1 = Except.error e ∧
      e.isReadOrStorage = true) :
    (learn_command presets button_name preset env).1 =
      Except.error (BLError.timeoutError timeoutMsg) ∧
    ((learn_command presets button_name preset env).2.2).count
      Event.notifDismiss = 1 := by
  rcases har : async_request env.enterEnv with ⟨r, evs⟩
  rw [har] at henter
  simp only at henter
  subst henter
  have hevs := async_request_count_notif env.enterEnv
  rw [har] at hevs
  have hloopn := learn_loop_count_notif button_name preset env.polls
    LEARNING_TIMEOUT 0 0 presets (by omega)
  have hto := learn_loop_noData button_name preset env.polls hall
    LEARNING_TIMEOUT 0 0 presets (by omega)
  rw [learn_command_ok_eval presets button_name preset env () evs har]
  constructor
  · exact hto.1
  · simp only [List.count_append]
    rw [hevs.2, hloopn.2]
    rfl

theorem C3_learning_timeout_witness :
    (learn_command [] "b" "p"
        (LearnEnv.mk
          (ReqEnv.mk (Except.ok ()) (Except.ok ()) (Except.ok ()))
          (fun _ => (0, ReqEnv.mk (Except.error BLError.readError)
            (Except.ok ()) (Except.ok []))))).1 =
      Except.error (BLError.timeoutError timeoutMsg) := by
  exact (C3_learning_timeout [] "b" "p"
    (LearnEnv.mk
      (ReqEnv.mk (Except.ok ()) (Except.ok ()) (Except.ok ()))
      (fun _ => (0, ReqEnv.mk (Except.error BLError.readError)
        (Except.ok ()) (Except.ok []))))
    rfl (fun _ => ⟨BLError.readError, rfl, rfl⟩)).1

/-- C2: if `enter_learning` succeeds, `check_data` raises "no data" on
polling attempts 1-4 and returns raw bytes on attempt 5 within the timeout
window, then `learn_command` returns the base64 encoding of those bytes and
writes it into the requested preset/button slot before returning. -/
theorem C2_learn_success (presets : Presets) (m : List (String × String))
    (button_name preset : String) (data : List Nat) (env : LearnEnv)
    (hp : presets.lookup preset = some m)
    (henter : (async_request env.enterEnv).1 = Except.ok ())
    (hfail : ∀ j, j < 4 → ∃ e, (async_request (env.polls j).2).1 =
      Except.error e ∧ e.isReadOrStorage = true)
    (hok : (async_request (env.polls 4).2).1 = Except.ok data)
    (htime : pollElapsed env.polls 0 4 < LEARNING_TIMEOUT) :
    (learn_command presets button_name preset env).1 =
      Except.ok (b64encode data) ∧
    slot (learn_command presets button_name preset env).2.1 preset
      button_name = some (b64encode data) := by
  rcases har : async_request env.enterEnv with ⟨r, evs⟩
  rw [har] at henter
  simp only at henter
  subst henter
  have hreach := learn_loop_reaches_ok button_name preset env.polls data 4 0 0
    presets
    (fun j hj => by
      rw [show (0 : Nat) + j = j by omega]
      exact hfail j hj)
    (by rw [show (0 : Nat) + 4 = 4 by omega]; exact hok)
    (by omega)
  obtain ⟨h₁, h₂⟩ := hreach.2 m hp
  rw [learn_command_ok_eval presets button_name preset env () evs har]
  refine ⟨h₁, ?_⟩
  show slot (learn_loop presets button_name preset env.polls 0 0).2.1 preset
    button_name = some (b64encode data)
  rw [h₂]
  simp [slot,
    setSlot_lookup_self presets preset button_name (b64encode data) m hp,
    dictSet_lookup_self]

theorem C2_learn_success_witness :
    (learn_command [("p", [("b", "old")])] "b" "p"
        (LearnEnv.mk
          (ReqEnv.mk (Except.ok ()) (Except.ok ()) (Except.ok ()))
          (fun j => (0, ReqEnv.mk
            (if j < 4 then Except.error BLError.readError
              else Except.ok [77, 97, 110])
            (Except.ok ()) (Except.ok []))))).1 =
      Except.ok "TWFu" := by
  have h := C2_learn_success [("p", [("b", "old")])] [("b", "old")] "b" "p"
    [77, 97, 110]
    (LearnEnv.mk
      (ReqEnv.mk (Except.ok ()) (Except.ok ()) (Except.ok ()))
      (fun j => (0, ReqEnv.mk
        (if j < 4 then Except.error BLError.readError
          else Except.ok [77, 97, 110])
        (Except.ok ()) (Except.ok []))))
    (by decide) rfl
    (fun j hj => by
      interval_cases j <;> exact ⟨BLError.readError, rfl, rfl⟩)
    rfl (by decide)
  rw [h.1]
  rfl

/-- C9: if the requested preset is not a key of the preset collection and a
poll captures data within the window, `learn_command` fails with `KeyError`
when storing the code, and the notification is still dismissed exactly once
before the failure propagates. -/
theorem C9_missing_preset (presets : Presets) (button_name preset : String)
    (data : List Nat) (env : LearnEnv) (k : Nat)
    (hp : presets.lookup preset = none)
    (henter : (async_request env.enterEnv).1 = Except.ok ())
    (hfail : ∀ j, j < k → ∃ e, (async_request (env.polls j).2).1 =
      Except.error e ∧ e.isReadOrStorage = true)
    (hok : (async_request (env.polls k).2).1 = Except.ok data)
    (htime : pollElapsed env.polls 0 k < LEARNING_TIMEOUT) :
    (learn_command presets button_name preset env).1 =
      Except.error (BLError.keyError preset) ∧
    ((learn_command presets button_name preset env).2.2).count
      Event.notifDismiss = 1 := by
  rcases har : async_request env.enterEnv with ⟨r, evs⟩
  rw [har] at henter
  simp only at henter
  subst henter
  have hevs := async_request_count_notif env.enterEnv
  rw [har] at hevs
  have hloopn := learn_loop_count_notif button_name preset env.polls
    LEARNING_TIMEOUT 0 0 presets (by omega)
  have hreach := learn_loop_reaches_ok button_name preset env.polls data k 0 0
    presets
    (fun j hj => by
      rw [show (0 : Nat) + j = j by omega]
      exact hfail j hj)
    (by rw [show (0 : Nat) + k = k by omega]; exact hok)
    (by omega)
  obtain ⟨h₁, _⟩ := hreach.1 hp
  rw [learn_command_ok_eval presets button_name preset env () evs har]
  constructor
  · exact h₁
  · simp only [List.count_append]
    rw [hevs.2, hloopn.2]
    rfl

theorem C9_missing_preset_witness :
    (learn_command [] "b" "p"
        (LearnEnv.mk
          (ReqEnv.mk (Except.ok ()) (Except.ok ()) (Except.ok ()))
          (fun _ => (0, ReqEnv.mk (Except.ok [1, 2]) (Except.ok ())
            (Except.ok []))))).1 =
      Except.error (BLError.keyError "p") := by
  exact (C9_missing_preset [] "b" "p" [1, 2]
    (LearnEnv.mk
      (ReqEnv.mk (Except.ok ()) (Except.ok ()) (Except.ok ()))
      (fun _ => (0, ReqEnv.mk (Except.ok [1, 2]) (Except.ok ())
        (Except.ok []))))
    0 rfl rfl
    (fun j hj => absurd hj (by omega))
    rfl (by decide)).1

/-- C10: `send_command` never mutates the preset collection, and a
successful `learn_command` mutates only the requested preset/button slot:
every other preset entry, and every other button of the requested preset, is
unchanged. -/
theorem C10_frame :
    (∀ (presets : Presets) (button_name preset : String)
      (decodeRes : Except BLError (List Nat)) (sendEnv : ReqEnv Unit),
      (send_command presets button_name preset decodeRes sendEnv).2.1 =
        presets) ∧
    (∀ (presets : Presets) (button_name preset : String) (env : LearnEnv)
      (s : String),
      (learn_command presets button_name preset env).1 = Except.ok s →
      (∀ p, p ≠ preset →
        ((learn_command presets button_name preset env).2.1).lookup p =
          presets.lookup p) ∧
      (∀ b, b ≠ button_name →
        slot (learn_command presets button_name preset env).2.1 preset b =
          slot presets preset b)) := by
  constructor
  · intro presets button_name preset decodeRes sendEnv
    unfold send_command
    repeat' split
    all_goals rfl
  · intro presets button_name preset env s hok
    rcases har : async_request env.enterEnv with ⟨r, evs⟩
    rcases r with e | u
    · rw [learn_command_error_eval presets button_name preset env e evs har]
        at hok
      exact absurd hok (by simp)
    · rw [learn_command_ok_eval presets button_name preset env u evs har]
        at hok ⊢
      obtain ⟨⟨m, hm⟩, hset⟩ := learn_loop_ok_inv button_name preset env.polls
        s LEARNING_TIMEOUT 0 0 presets (by omega) hok
      constructor
      · intro p hpne
        show ((learn_loop presets button_name preset env.polls 0 0).2.1).lookup
          p = presets.lookup p
        rw [hset]
        exact setSlot_lookup_ne presets preset button_name s p hpne
      · intro b hbne
        show slot (learn_loop presets button_name preset env.polls 0 0).2.1
          preset b = slot presets preset b
        rw [hset]
        simp [slot, setSlot_lookup_self presets preset button_name s m hm, hm,
          dictSet_lookup_ne m button_name s b hbne]

theorem C10_frame_witness :
    ((learn_command [("p", [("b", "old"), ("c", "keep")]), ("q", [("d", "x")])]
        "b" "p"
        (LearnEnv.mk
          (ReqEnv.mk (Except.ok ()) (Except.ok ()) (Except.ok ()))
          (fun _ => (0, ReqEnv.mk (Except.ok [77]) (Except.ok ())
            (Except.ok []))))).2.1).lookup "q" = some [("d", "x")] ∧
    (send_command [("p", [("b", "old")])] "b" "p" (Except.ok [])
        (ReqEnv.mk (Except.ok ()) (Except.ok ()) (Except.ok ()))).2.1 =
      [("p", [("b", "old")])] := by
  have hok : (learn_command
      [("p", [("b", "old"), ("c", "keep")]), ("q", [("d", "x")])] "b" "p"
      (LearnEnv.mk
        (ReqEnv.mk (Except.ok ()) (Except.ok ()) (Except.ok ()))
        (fun _ => (0, ReqEnv.mk (Except.ok [77]) (Except.ok ())
          (Except.ok []))))).1 = Except.ok (b64encode [77]) := by
    rw [learn_command_ok_eval
      [("p", [("b", "old"), ("c", "keep")]), ("q", [("d", "x")])] "b" "p"
      (LearnEnv.mk
        (ReqEnv.mk (Except.ok ()) (Except.ok ()) (Except.ok ()))
        (fun _ => (0, ReqEnv.mk (Except.ok [77]) (Except.ok ())
          (Except.ok [])))) ()
      [Event.dispatch, Event.execJob] rfl]
    exact ((learn_loop_reaches_ok "b" "p"
      (fun _ => (0, ReqEnv.mk (Except.ok [77]) (Except.ok ())
        (Except.ok []))) [77] 0 0 0
      [("p", [("b", "old"), ("c", "keep")]), ("q", [("d", "x")])]
      (fun j hj => absurd hj (by omega)) rfl (by decide)).2
      [("b", "old"), ("c", "keep")] (by decide)).1
  refine ⟨?_, C10_frame.1 [("p", [("b", "old")])] "b" "p" (Except.ok [])
    (ReqEnv.mk (Except.ok ()) (Except.ok ()) (Except.ok ()))⟩
  have h := (C10_frame.2
    [("p", [("b", "old"), ("c", "keep")]), ("q", [("d", "x")])] "b" "p"
    (LearnEnv.mk
      (ReqEnv.mk (Except.ok ()) (Except.ok ()) (Except.ok ()))
      (fun _ => (0, ReqEnv.mk (Except.ok [77]) (Except.ok ())
        (Except.ok []))))
    (b64encode [77]) hok).1 "q" (by decide)
  rw [h]
  decide
